import Mathlib

/-!
Shallow embedding of the SmartBFT-Go/fabric-config configuration model.

The repository ships the configtx test files (channel capability, policy and
MSP tests) and the protolator peerext adapters as source.  The configtx
mutator implementations themselves are not among the shipped sources, so the
mutators below are modelled from the specification, with every behaviour that
the shipped tests pin (expected JSON trees, exact error strings, list lengths)
taken from those tests.  The protolator adapter functions are translated
directly from protolator/protoext/peerext/proposal.go and
proposal_response.go.
-/

namespace FabricConfig

/-- Key constants used by the configtx package. -/
def AdminsPolicyKey : String := "Admins"

/-- Key of the Capabilities config value. -/
def CapabilitiesKey : String := "Capabilities"

/-- Key of the MSP config value. -/
def MSPKey : String := "MSP"

/-- Typed policy name constant for implicit meta policies. -/
def ImplicitMetaPolicyType : String := "ImplicitMeta"

/-- Typed policy name constant for signature policies. -/
def SignaturePolicyType : String := "Signature"

/-- Modelled from the spec: certificate material is consumed as a capability,
not reimplemented.  A certificate is abstracted to the fields the mutators
inspect: subject and issuer identity (standing in for the x509 subject and
issuer used by chain verification), the serial number (none models the Go
nil big.Int of a zero certificate, printed as <nil>), and the
certificate-signing key-usage flag. -/
structure Cert where
  subject : String
  issuer : String
  serial : Option Nat
  keyUsageCertSign : Bool
deriving DecidableEq, Repr

/-- Rendering of a certificate serial number as Go fmt renders a *big.Int:
a nil pointer prints as <nil>, otherwise the decimal value. -/
def serialString : Option Nat → String
  | none => "<nil>"
  | some n => toString n

/-- Organizational unit identifier of an MSP (membership/ou.go OUIdentifier). -/
structure OUIdentifier where
  certificate : Option Cert
  organizationalUnitIdentifier : String
deriving DecidableEq, Repr

/-- Crypto configuration of an MSP (membership CryptoConfig). -/
structure CryptoConfig where
  signatureHashFamily : String
  identityIdentifierHashFunction : String
deriving DecidableEq, Repr

/-- NodeOUs block of an MSP. -/
structure NodeOUs where
  enable : Bool
  clientOUIdentifier : OUIdentifier
  peerOUIdentifier : OUIdentifier
  adminOUIdentifier : OUIdentifier
  ordererOUIdentifier : OUIdentifier
deriving DecidableEq, Repr

/-- Modelled from the spec: a certificate revocation list is additive-only
payload; it is abstracted to the issuing subject and the revoked serial
numbers. -/
structure CRL where
  issuer : String
  revokedSerials : List Nat
deriving DecidableEq, Repr

/-- The typed MSP value (configtx MSP struct), as exercised by baseMSP in
msp_test.go. -/
structure MSP where
  name : String
  rootCerts : List Cert
  intermediateCerts : List Cert
  admins : List Cert
  revocationList : List CRL
  organizationalUnitIdentifiers : List OUIdentifier
  cryptoConfig : CryptoConfig
  tlsRootCerts : List Cert
  tlsIntermediateCerts : List Cert
  nodeOUs : NodeOUs
deriving DecidableEq, Repr

/-- Modelled from the spec: the opaque payload codec keys typed content by an
entry context.  The payload of a config value is a closed set of tagged
variants; raw models bytes that do not decode for the context under which
they are read (the test uses the literal bytes foobar). -/
inductive ValuePayload where
  | capabilities (caps : List String)
  | msp (m : MSP)
  | raw (bytes : List Nat)
deriving DecidableEq, Repr

/-- A config value: opaque payload, version counter and mod-policy reference
(cb.ConfigValue). -/
structure ConfigValue where
  value : ValuePayload
  version : Nat
  modPolicy : String
deriving DecidableEq, Repr

/-- Content of a cb.Policy: the implicit meta variant carries the threshold
rule (0 = ANY, 1 = ALL, 2 = MAJORITY, matching the proto enum) and the
sub-policy name; the signature variant is opaque to this engine; raw models
undecodable bytes. -/
inductive PolicyContent where
  | implicitMeta (rule : Nat) (subPolicy : String)
  | signature (rule : String)
  | raw (bytes : List Nat)
deriving DecidableEq, Repr

/-- A config policy entry (cb.ConfigPolicy wrapping cb.Policy): the numeric
proto discriminant (1 = SIGNATURE, 3 = IMPLICIT_META), the content, a version
counter and a mod-policy reference. -/
structure ConfigPolicy where
  ptype : Nat
  content : PolicyContent
  version : Nat
  modPolicy : String
deriving DecidableEq, Repr

/-- The typed policy view exposed to callers (configtx Policy struct). -/
structure Policy where
  ptype : String
  rule : String
  modPolicy : String
deriving DecidableEq, Repr

/-- A group node of the configuration tree (cb.ConfigGroup): child groups,
values, policies, version counter and mod-policy reference.  The name-keyed
Go maps are embedded as association lists with unique keys. -/
structure ConfigGroup where
  groups : List (String × ConfigGroup)
  values : List (String × ConfigValue)
  policies : List (String × ConfigPolicy)
  version : Nat
  modPolicy : String

/-- Lookup in an association list, the embedding of Go map indexing. -/
def alookup {α : Type} (l : List (String × α)) (k : String) : Option α :=
  match l with
  | [] => none
  | (k₁, v) :: rest => if k₁ = k then some v else alookup rest k

/-- Insert-or-replace in an association list, the embedding of Go map
assignment. -/
def ainsert {α : Type} (l : List (String × α)) (k : String) (v : α) :
    List (String × α) :=
  match l with
  | [] => [(k, v)]
  | (k₁, v₁) :: rest =>
      if k₁ = k then (k, v) :: rest else (k₁, v₁) :: ainsert rest k v

/-- Deletion from an association list, the embedding of Go map delete. -/
def aremove {α : Type} (l : List (String × α)) (k : String) :
    List (String × α) :=
  match l with
  | [] => []
  | (k₁, v₁) :: rest =>
      if k₁ = k then aremove rest k else (k₁, v₁) :: aremove rest k

/-- Modelled from the spec: the single generic set primitive.  It writes the
entry back under the given key, always stamping the given mod-policy.  As
pinned by the expected JSON of TestSetChannelCapability and
TestRemoveChannelCapability (version "0" after a successful mutation), the
written entry is a fresh config value whose version counter is 0; the
version bump by 1 described for the diff engine happens there, not here. -/
def setValue (g : ConfigGroup) (key : String) (payload : ValuePayload)
    (modPolicy : String) : ConfigGroup :=
  let cv : ConfigValue := { value := payload, version := 0, modPolicy := modPolicy }
  { g with values := ainsert g.values key cv }

/-- Decoding of a capabilities payload; non-capability bytes fail as the test
pins for the literal bytes foobar. -/
def capabilitiesFromPayload : ValuePayload → Except String (List String)
  | .capabilities caps => .ok caps
  | _ => .error "unmarshaling capabilities: proto: can't skip unknown wire type 6"

/-- Channel capabilities read accessor: absent entry yields none without an
error (pinned by TestChannelCapabilities), a present entry is decoded. -/
def channelCapabilities (g : ConfigGroup) :
    Except String (Option (List String)) :=
  match alookup g.values CapabilitiesKey with
  | none => .ok none
  | some cv => (capabilitiesFromPayload cv.value).map some

/-- Modelled from the spec: AddCapability reads the capability set through
the codec, adds the named capability and writes the set back through the
generic set primitive with the Admins mod-policy. -/
def addCapability (g : ConfigGroup) (capability : String) :
    Except String ConfigGroup :=
  match channelCapabilities g with
  | .error e => .error ("retrieving channel capabilities: " ++ e)
  | .ok caps₀ =>
      let caps := caps₀.getD []
      let newCaps := if capability ∈ caps then caps else caps ++ [capability]
      .ok (setValue g CapabilitiesKey (.capabilities newCaps) AdminsPolicyKey)

/-- Modelled from the spec: RemoveCapability fails with a capability-not-set
condition if the named capability is absent from the set and never creates
the Values entry; otherwise it writes the reduced set back through the
generic set primitive. -/
def removeCapability (g : ConfigGroup) (capability : String) :
    Except String ConfigGroup :=
  match channelCapabilities g with
  | .error e => .error ("retrieving channel capabilities: " ++ e)
  | .ok caps₀ =>
      let caps := caps₀.getD []
      if capability ∈ caps then
        .ok (setValue g CapabilitiesKey
          (.capabilities (caps.filter (· ≠ capability))) AdminsPolicyKey)
      else
        .error "capability not set"

/-- Printed form of an implicit meta threshold, matching the proto enum
names used when a stored policy is materialized as a typed view. -/
def ruleString : Nat → String
  | 0 => "ANY"
  | 1 => "ALL"
  | 2 => "MAJORITY"
  | n => toString n

/-- Modelled from the spec: the policy resolver materializes one stored
policy as its typed view, validating the discriminant against the closed
variant set; an unrecognized discriminant fails with the unknown numeric
type (error strings pinned by TestRemoveChannelPolicyFailures and
TestConfigurationFailures). -/
def getPolicy (cp : ConfigPolicy) : Except String Policy :=
  if cp.ptype = 3 then
    match cp.content with
    | .implicitMeta r sub =>
        .ok { ptype := ImplicitMetaPolicyType,
              rule := ruleString r ++ " " ++ sub,
              modPolicy := cp.modPolicy }
    | _ => .error "unmarshaling implicit meta policy: proto: can't skip unknown wire type 6"
  else if cp.ptype = 1 then
    match cp.content with
    | .signature s =>
        .ok { ptype := SignaturePolicyType, rule := s,
              modPolicy := cp.modPolicy }
    | _ => .error "unmarshaling signature policy: proto: can't skip unknown wire type 6"
  else
    .error ("unknown policy type: " ++ toString cp.ptype)

/-- Modelled from the spec: the policy resolver materializes a typed view of
the whole policies mapping, failing fast on the first entry whose
discriminant is outside the closed variant set. -/
def getPolicies : List (String × ConfigPolicy) →
    Except String (List (String × Policy))
  | [] => .ok []
  | (n, cp) :: rest => do
      let p ← getPolicy cp
      let ps ← getPolicies rest
      .ok ((n, p) :: ps)

/-- Stamped mod-policy of a written entry: defaults to the conventional
Admins policy name when none is supplied (pinned by TestSetChannelPolicy,
where a policy written with an empty mod-policy reads back with Admins). -/
def stampModPolicy (mp : String) : String :=
  if mp = "" then AdminsPolicyKey else mp

/-- Splitting of a character list at every occurrence of a separator,
keeping empty fields, the embedding of the Go strings.Split used by the
implicit meta rule grammar. -/
def splitOnChar (c : Char) : List Char → List (List Char)
  | [] => [[]]
  | x :: xs =>
      match splitOnChar c xs with
      | [] => [[x]]
      | w :: ws => if x = c then [] :: w :: ws else (x :: w) :: ws

/-- Splitting of a string on the space character. -/
def splitSpace (s : String) : List String :=
  (splitOnChar ' ' s.data).map String.mk

/-- Modelled from the spec: parsing of an implicit meta rule against the
grammar ANY, ALL or MAJORITY followed by a sub-policy name; any other
threshold token is rejected. -/
def implicitMetaFromString (s : String) : Except String (Nat × String) :=
  match splitSpace s with
  | [r, sub] =>
      if r = "ANY" then .ok (0, sub)
      else if r = "ALL" then .ok (1, sub)
      else if r = "MAJORITY" then .ok (2, sub)
      else .error ("unknown rule type " ++ r ++ ", expected ALL, ANY, or MAJORITY")
  | other => .error ("expected two space separated tokens, but got " ++ toString other.length)

/-- Modelled from the spec: conversion of a typed policy into a stored
config policy.  Policy content is validated against the closed variant set;
an unrecognized textual type fails with the unknown type (pinned by
TestSetChannelPoliciesFailures); the written entry carries the stamped
mod-policy and a fresh version counter. -/
def policyToConfigPolicy (p : Policy) : Except String ConfigPolicy :=
  if p.ptype = ImplicitMetaPolicyType then
    match implicitMetaFromString p.rule with
    | .error e => .error ("invalid implicit meta policy rule " ++ p.rule ++ ": " ++ e)
    | .ok (r, sub) =>
        .ok { ptype := 3, content := .implicitMeta r sub, version := 0,
              modPolicy := stampModPolicy p.modPolicy }
  else if p.ptype = SignaturePolicyType then
    .ok { ptype := 1, content := .signature p.rule, version := 0,
          modPolicy := stampModPolicy p.modPolicy }
  else
    .error ("unknown policy type: " ++ p.ptype)

/-- Modelled from the spec: SetPolicy validates and writes one policy entry
into the working group. -/
def setChannelPolicy (g : ConfigGroup) (name : String) (p : Policy) :
    Except String ConfigGroup :=
  match policyToConfigPolicy p with
  | .error e => .error e
  | .ok cp => .ok { g with policies := ainsert g.policies name cp }

/-- Batch conversion used by SetPolicies: fails on the first entry whose
type is unrecognized, converting none otherwise. -/
def policiesToConfigPolicies : List (String × Policy) →
    Except String (List (String × ConfigPolicy))
  | [] => .ok []
  | (n, p) :: rest => do
      let cp ← policyToConfigPolicy p
      let cps ← policiesToConfigPolicies rest
      .ok ((n, cp) :: cps)

/-- Modelled from the spec: SetPolicies batch-applies a full replacement
policy set, rejecting the whole batch (no entries applied) if any single
entry has an unrecognized type - a fail-fast, all-or-nothing contract. -/
def setChannelPolicies (g : ConfigGroup) (ps : List (String × Policy)) :
    Except String ConfigGroup :=
  match policiesToConfigPolicies ps with
  | .error e => .error e
  | .ok cps => .ok { g with policies := cps }

/-- Modelled from the spec: RemovePolicy materializes the typed view of the
policies mapping (failing on any entry with an unrecognized type, as pinned
by TestRemoveChannelPolicyFailures) and then deletes the named entry. -/
def removeChannelPolicy (g : ConfigGroup) (name : String) :
    Except String ConfigGroup :=
  match getPolicies g.policies with
  | .error e => .error e
  | .ok _ => .ok { g with policies := aremove g.policies name }

/-- Modelled from the spec: SetModPolicy rejects an empty policy name and
otherwise unconditionally overwrites the mod-policy reference of the group
(error string pinned by TestSetChannelModPolicFailure). -/
def setChannelModPolicy (g : ConfigGroup) (mp : String) :
    Except String ConfigGroup :=
  if mp = "" then .error "non empty mod policy is required"
  else .ok { g with modPolicy := mp }

/-- A configuration: the top-level channel group (cb.Config). -/
structure Config where
  channelGroup : ConfigGroup

/-- Modelled from the spec: the builder retains an immutable original tree
and an independently mutable working tree obtained by deep clone at open
time (ConfigTx with original and updated). -/
structure ConfigTx where
  original : Config
  updated : Config

/-- Modelled from the spec: New deep-clones the supplied config into the
working copy; in this pure embedding a deep clone of an immutable value is
the value itself, and mutators rebuild only the updated component. -/
def New (c : Config) : ConfigTx :=
  { original := c, updated := c }

/-- The content-changing channel mutator calls routed through the working
copy. -/
inductive ChannelMutation where
  | addCapability (capability : String)
  | removeCapability (capability : String)
  | setPolicy (name : String) (p : Policy)
  | setPolicies (ps : List (String × Policy))
  | removePolicy (name : String)
  | setModPolicy (mp : String)

/-- Dispatch of one channel mutator call on a channel group. -/
def applyChannelMutation (g : ConfigGroup) : ChannelMutation →
    Except String ConfigGroup
  | .addCapability c => addCapability g c
  | .removeCapability c => removeCapability g c
  | .setPolicy n p => setChannelPolicy g n p
  | .setPolicies ps => setChannelPolicies g ps
  | .removePolicy n => removeChannelPolicy g n
  | .setModPolicy mp => setChannelModPolicy g mp

/-- One mutator call on the transaction: a successful call replaces the
working channel group, a failed call leaves the transaction exactly as it
was (single-entry atomicity of the mutator contract). -/
def applyMutationTx (ct : ConfigTx) (m : ChannelMutation) : ConfigTx :=
  match applyChannelMutation ct.updated.channelGroup m with
  | .ok g₁ => { ct with updated := { channelGroup := g₁ } }
  | .error _ => ct

/-- A sequence of mutator calls on the working copy. -/
def applyMutations (ct : ConfigTx) (ms : List ChannelMutation) : ConfigTx :=
  ms.foldl applyMutationTx ct

/-- Result of a group mutator as the caller sees the tree: a successful call
yields the new group, a failed call leaves the group as it was. -/
def applyResult (g : ConfigGroup) (r : Except String ConfigGroup) :
    ConfigGroup :=
  match r with
  | .ok g₁ => g₁
  | .error _ => g

/-- Modelled from the spec: an organization MSP mutator first locates the
MSP value by name inside the working group; if absent, it fails with a
NotFound condition naming the missing entry (error string pinned by every
MSP failure test in msp_test.go). -/
def getMSPConfig (g : ConfigGroup) : Except String MSP :=
  match alookup g.values MSPKey with
  | none => .error "config does not contain value for MSP"
  | some cv =>
      match cv.value with
      | .msp m => .ok m
      | _ => .error "unmarshaling MSP config: proto: can't skip unknown wire type 6"

/-- Write-back of a mutated MSP through the generic set primitive with the
Admins mod-policy. -/
def setMSPConfig (g : ConfigGroup) (m : MSP) : ConfigGroup :=
  setValue g MSPKey (.msp m) AdminsPolicyKey

/-- Modelled from the spec: key-usage validation of an added root or
intermediate certificate; a certificate without certificate-signing
authority fails with an InvalidArgument condition naming the violated
constraint and the certificate serial number (error string pinned by
TestAddRootCertFailure). -/
def validateCert (c : Cert) (certType : String) : Except String Unit :=
  if c.keyUsageCertSign then .ok ()
  else .error ("invalid " ++ certType ++
    " cert: KeyUsage must be x509.KeyUsageCertSign. serial number: " ++
    serialString c.serial)

/-- Modelled from the spec: the x509 chain-verification capability is
consumed, not reimplemented; a certificate chains to a pool of roots when
some root subject matches its issuer. -/
def chainsTo (c : Cert) (roots : List Cert) : Bool :=
  roots.any (fun r => r.subject = c.issuer)

/-- Removal of one certificate from a certificate list. -/
def certsWithout (certs : List Cert) (cert : Cert) : List Cert :=
  certs.filter (fun c => c ≠ cert)

/-- Verification that every certificate of a list still chains to some
remaining root; failure carries the chain-of-trust error of the Go x509
library (pinned by TestRemoveTLSRootCertVerifyFailure). -/
def verifyChained (certs roots : List Cert) : Except String Unit :=
  if certs.all (fun c => chainsTo c roots) then .ok ()
  else .error "x509: certificate signed by unknown authority"

/-- Modelled from the spec: AddAdminCert appends an admin certificate;
adding a certificate already present is a successful no-op (pinned by
TestAddAdminCert, where re-adding keeps the list at length 2). -/
def addAdminCert (g : ConfigGroup) (cert : Cert) : Except String ConfigGroup :=
  match getMSPConfig g with
  | .error e => .error e
  | .ok m =>
      if cert ∈ m.admins then .ok g
      else .ok (setMSPConfig g { m with admins := m.admins ++ [cert] })

/-- Modelled from the spec: RemoveAdminCert filters the certificate out of
the admin list. -/
def removeAdminCert (g : ConfigGroup) (cert : Cert) : Except String ConfigGroup :=
  match getMSPConfig g with
  | .error e => .error e
  | .ok m => .ok (setMSPConfig g { m with admins := certsWithout m.admins cert })

/-- Modelled from the spec: AddRootCert requires certificate-signing key
usage and appends the certificate; adding a certificate already present is
a successful no-op (pinned by TestAddRootCert). -/
def addRootCert (g : ConfigGroup) (cert : Cert) : Except String ConfigGroup :=
  match getMSPConfig g with
  | .error e => .error e
  | .ok m =>
      match validateCert cert "root" with
      | .error e => .error e
      | .ok _ =>
          if cert ∈ m.rootCerts then .ok g
          else .ok (setMSPConfig g { m with rootCerts := m.rootCerts ++ [cert] })

/-- Modelled from the spec: RemoveRootCert removes the certificate from the
root list and then verifies that every remaining intermediate and
TLS-intermediate certificate still chains to some remaining root of its
pool; on verification failure the call fails and nothing is written back. -/
def removeRootCert (g : ConfigGroup) (cert : Cert) : Except String ConfigGroup :=
  match getMSPConfig g with
  | .error e => .error e
  | .ok m =>
      match verifyChained m.intermediateCerts (certsWithout m.rootCerts cert) with
      | .error e => .error e
      | .ok _ =>
          match verifyChained m.tlsIntermediateCerts m.tlsRootCerts with
          | .error e => .error e
          | .ok _ =>
              .ok (setMSPConfig g
                { m with rootCerts := certsWithout m.rootCerts cert })

/-- Modelled from the spec: AddIntermediateCert requires certificate-signing
key usage and appends the certificate; adding a certificate already present
is a successful no-op (pinned by TestAddIntermediateCert). -/
def addIntermediateCert (g : ConfigGroup) (cert : Cert) :
    Except String ConfigGroup :=
  match getMSPConfig g with
  | .error e => .error e
  | .ok m =>
      match validateCert cert "intermediate" with
      | .error e => .error e
      | .ok _ =>
          if cert ∈ m.intermediateCerts then .ok g
          else .ok (setMSPConfig g
            { m with intermediateCerts := m.intermediateCerts ++ [cert] })

/-- Modelled from the spec: RemoveIntermediateCert filters the certificate
out of the intermediate list. -/
def removeIntermediateCert (g : ConfigGroup) (cert : Cert) :
    Except String ConfigGroup :=
  match getMSPConfig g with
  | .error e => .error e
  | .ok m =>
      .ok (setMSPConfig g
        { m with intermediateCerts := certsWithout m.intermediateCerts cert })

/-- Modelled from the spec: AddOUIdentifier appends an organizational unit
identifier; adding an identifier already present is a successful no-op. -/
def addOUIdentifier (g : ConfigGroup) (ou : OUIdentifier) :
    Except String ConfigGroup :=
  match getMSPConfig g with
  | .error e => .error e
  | .ok m =>
      if ou ∈ m.organizationalUnitIdentifiers then .ok g
      else .ok (setMSPConfig g
        { m with organizationalUnitIdentifiers :=
            m.organizationalUnitIdentifiers ++ [ou] })

/-- Modelled from the spec: RemoveOUIdentifier filters the identifier out. -/
def removeOUIdentifier (g : ConfigGroup) (ou : OUIdentifier) :
    Except String ConfigGroup :=
  match getMSPConfig g with
  | .error e => .error e
  | .ok m =>
      .ok (setMSPConfig g
        { m with organizationalUnitIdentifiers :=
            m.organizationalUnitIdentifiers.filter (fun o => o ≠ ou) })

/-- Modelled from the spec: SetCryptoConfig overwrites the crypto
configuration block. -/
def setCryptoConfig (g : ConfigGroup) (cc : CryptoConfig) :
    Except String ConfigGroup :=
  match getMSPConfig g with
  | .error e => .error e
  | .ok m => .ok (setMSPConfig g { m with cryptoConfig := cc })

/-- Modelled from the spec: AddTLSRootCert appends a TLS root certificate;
adding a certificate already present is a successful no-op. -/
def addTLSRootCert (g : ConfigGroup) (cert : Cert) :
    Except String ConfigGroup :=
  match getMSPConfig g with
  | .error e => .error e
  | .ok m =>
      if cert ∈ m.tlsRootCerts then .ok g
      else .ok (setMSPConfig g
        { m with tlsRootCerts := m.tlsRootCerts ++ [cert] })

/-- Modelled from the spec: RemoveTLSRootCert removes the certificate from
the TLS root list and then verifies that every remaining intermediate and
TLS-intermediate certificate still chains to some remaining root of its
pool; on verification failure the call fails and nothing is written back
(pinned by TestRemoveTLSRootCertVerifyFailure). -/
def removeTLSRootCert (g : ConfigGroup) (cert : Cert) :
    Except String ConfigGroup :=
  match getMSPConfig g with
  | .error e => .error e
  | .ok m =>
      match verifyChained m.intermediateCerts m.rootCerts with
      | .error e => .error e
      | .ok _ =>
          match verifyChained m.tlsIntermediateCerts
              (certsWithout m.tlsRootCerts cert) with
          | .error e => .error e
          | .ok _ =>
              .ok (setMSPConfig g
                { m with tlsRootCerts := certsWithout m.tlsRootCerts cert })

/-- Modelled from the spec: AddTLSIntermediateCert appends a TLS
intermediate certificate; adding a certificate already present is a
successful no-op (pinned by TestAddTLSIntermediateCert). -/
def addTLSIntermediateCert (g : ConfigGroup) (cert : Cert) :
    Except String ConfigGroup :=
  match getMSPConfig g with
  | .error e => .error e
  | .ok m =>
      if cert ∈ m.tlsIntermediateCerts then .ok g
      else .ok (setMSPConfig g
        { m with tlsIntermediateCerts := m.tlsIntermediateCerts ++ [cert] })

/-- Modelled from the spec: RemoveTLSIntermediateCert filters the
certificate out of the TLS intermediate list. -/
def removeTLSIntermediateCert (g : ConfigGroup) (cert : Cert) :
    Except String ConfigGroup :=
  match getMSPConfig g with
  | .error e => .error e
  | .ok m =>
      .ok (setMSPConfig g
        { m with tlsIntermediateCerts :=
            certsWithout m.tlsIntermediateCerts cert })

/-- Modelled from the spec: SetClientOUIdentifier overwrites the client
NodeOU identifier. -/
def setClientOUIdentifier (g : ConfigGroup) (ou : OUIdentifier) :
    Except String ConfigGroup :=
  match getMSPConfig g with
  | .error e => .error e
  | .ok m =>
      .ok (setMSPConfig g
        { m with nodeOUs := { m.nodeOUs with clientOUIdentifier := ou } })

/-- Modelled from the spec: SetPeerOUIdentifier overwrites the peer NodeOU
identifier. -/
def setPeerOUIdentifier (g : ConfigGroup) (ou : OUIdentifier) :
    Except String ConfigGroup :=
  match getMSPConfig g with
  | .error e => .error e
  | .ok m =>
      .ok (setMSPConfig g
        { m with nodeOUs := { m.nodeOUs with peerOUIdentifier := ou } })

/-- Modelled from the spec: SetAdminOUIdentifier overwrites the admin NodeOU
identifier. -/
def setAdminOUIdentifier (g : ConfigGroup) (ou : OUIdentifier) :
    Except String ConfigGroup :=
  match getMSPConfig g with
  | .error e => .error e
  | .ok m =>
      .ok (setMSPConfig g
        { m with nodeOUs := { m.nodeOUs with adminOUIdentifier := ou } })

/-- Modelled from the spec: SetOrdererOUIdentifier overwrites the orderer
NodeOU identifier. -/
def setOrdererOUIdentifier (g : ConfigGroup) (ou : OUIdentifier) :
    Except String ConfigGroup :=
  match getMSPConfig g with
  | .error e => .error e
  | .ok m =>
      .ok (setMSPConfig g
        { m with nodeOUs := { m.nodeOUs with ordererOUIdentifier := ou } })

/-- Modelled from the spec: SetEnableNodeOUs overwrites the NodeOU enable
flag. -/
def setEnableNodeOUs (g : ConfigGroup) (b : Bool) :
    Except String ConfigGroup :=
  match getMSPConfig g with
  | .error e => .error e
  | .ok m =>
      .ok (setMSPConfig g { m with nodeOUs := { m.nodeOUs with enable := b } })

/-- Modelled from the spec: AddCRL appends a revocation list to the opaque
revocation payload of the organization; this is additive only. -/
def addCRL (g : ConfigGroup) (crl : CRL) : Except String ConfigGroup :=
  match getMSPConfig g with
  | .error e => .error e
  | .ok m =>
      .ok (setMSPConfig g { m with revocationList := m.revocationList ++ [crl] })

/-- A signing identity: certificate, organization identifier (the private
key is not inspected by this embedding). -/
structure SigningIdentity where
  certificate : Cert
  mspId : String
deriving DecidableEq, Repr

/-- Modelled from the spec: revocation-list construction from a signing
identity and a set of certificates to revoke produces a new revocation-list
object (the bounded one-year validity window is outside this embedding). -/
def createMSPCRL (si : SigningIdentity) (certs : List Cert) : CRL :=
  { issuer := si.certificate.subject,
    revokedSerials := certs.filterMap Cert.serial }

/-- Modelled from the spec: AddCRLFromSigningIdentity builds the revocation
list from the signing identity and appends it; the MSP value is located
first (pinned by TestAddCRLFromSigningIdentityFailures, which fails with
the MSP NotFound condition before the nil signing identity is touched). -/
def addCRLFromSigningIdentity (g : ConfigGroup) (si : Option SigningIdentity)
    (certs : List Cert) : Except String ConfigGroup :=
  match getMSPConfig g with
  | .error e => .error e
  | .ok m =>
      match si with
      | none => .error "signing identity required"
      | some s =>
          .ok (setMSPConfig g
            { m with revocationList :=
                m.revocationList ++ [createMSPCRL s certs] })

/-- The fresh proto messages the peerext adapters return for their
statically opaque fields. -/
inductive ProtoMessage where
  | chaincodeInvocationSpec
  | txReadWriteSet
  | chaincodeEvent
  | chaincodeAction
deriving DecidableEq, Repr

namespace ChaincodeProposalPayload

/-- protolator/protoext/peerext/proposal.go: the statically opaque fields of
a ChaincodeProposalPayload. -/
def staticallyOpaqueFields : List String := ["input"]

/-- protolator/protoext/peerext/proposal.go: StaticallyOpaqueFieldProto
returns a fresh ChaincodeInvocationSpec for the first opaque field and an
error for every other name. -/
def staticallyOpaqueFieldProto (name : String) : Except String ProtoMessage :=
  if name ≠ staticallyOpaqueFields.head! then
    .error ("not a marshaled field: " ++ name)
  else
    .ok .chaincodeInvocationSpec

end ChaincodeProposalPayload

namespace ChaincodeAction

/-- protolator/protoext/peerext/proposal.go: the statically opaque fields of
a ChaincodeAction. -/
def staticallyOpaqueFields : List String := ["results", "events"]

/-- protolator/protoext/peerext/proposal.go: StaticallyOpaqueFieldProto
switches on the field name, returning a fresh TxReadWriteSet for results, a
fresh ChaincodeEvent for events, and an error otherwise. -/
def staticallyOpaqueFieldProto (name : String) : Except String ProtoMessage :=
  if name = "results" then .ok .txReadWriteSet
  else if name = "events" then .ok .chaincodeEvent
  else .error ("not a marshaled field: " ++ name)

end ChaincodeAction

namespace ProposalResponsePayload

/-- protolator/protoext/peerext/proposal_response.go: the statically opaque
fields of a ProposalResponsePayload. -/
def staticallyOpaqueFields : List String := ["extension"]

/-- protolator/protoext/peerext/proposal_response.go:
StaticallyOpaqueFieldProto returns a fresh ChaincodeAction for the first
opaque field and an error for every other name. -/
def staticallyOpaqueFieldProto (name : String) : Except String ProtoMessage :=
  if name ≠ staticallyOpaqueFields.head! then
    .error ("not a marshaled field: " ++ name)
  else
    .ok .chaincodeAction

end ProposalResponsePayload

/-! Concrete fixtures taken from the shipped tests. -/

/-- The channel group of TestSetChannelCapability: one Capabilities value
that is the zero config value (its empty payload decodes to the empty
capability set, its version is 0 and its mod-policy is empty). -/
def capTestGroup : ConfigGroup :=
  { groups := [],
    values := [(CapabilitiesKey,
      { value := .capabilities [], version := 0, modPolicy := "" })],
    policies := [], version := 0, modPolicy := "" }

/-- The channel group TestSetChannelCapability expects after
AddCapability V3_0: capability set V3_0, version 0, mod-policy Admins. -/
def capTestGroupAfter : ConfigGroup :=
  { groups := [],
    values := [(CapabilitiesKey,
      { value := .capabilities ["V3_0"], version := 0, modPolicy := "Admins" })],
    policies := [], version := 0, modPolicy := "" }

/-- The stored Readers policy of the standard policy fixture. -/
def readersConfigPolicy : ConfigPolicy :=
  { ptype := 3, content := .implicitMeta 0 "Readers", version := 0,
    modPolicy := "Admins" }

/-- The stored Writers policy of the standard policy fixture. -/
def writersConfigPolicy : ConfigPolicy :=
  { ptype := 3, content := .implicitMeta 0 "Writers", version := 0,
    modPolicy := "Admins" }

/-- The stored Admins policy of the standard policy fixture. -/
def adminsConfigPolicy : ConfigPolicy :=
  { ptype := 3, content := .implicitMeta 2 "Admins", version := 0,
    modPolicy := "Admins" }

/-- The channel group of TestRemoveChannelPolicy: the standard policy set
Readers, Writers, Admins. -/
def policyTestGroup : ConfigGroup :=
  { groups := [], values := [],
    policies := [("Readers", readersConfigPolicy),
                 ("Writers", writersConfigPolicy),
                 ("Admins", adminsConfigPolicy)],
    version := 0, modPolicy := "" }

/-- The channel group of TestRemoveChannelPolicyFailures: the standard
policy set with the Readers entry overwritten by a policy of the
unrecognized numeric type 15. -/
def badTypePolicyGroup : ConfigGroup :=
  { groups := [], values := [],
    policies := [("Readers",
      { ptype := 15, content := .raw [], version := 0, modPolicy := "" }),
                 ("Writers", writersConfigPolicy),
                 ("Admins", adminsConfigPolicy)],
    version := 0, modPolicy := "" }

/-- The batch of TestSetChannelPoliciesFailures: three well-formed implicit
meta policies plus one zero policy whose empty textual type is
unrecognized. -/
def badPolicyBatch : List (String × Policy) :=
  [("Readers", { ptype := ImplicitMetaPolicyType, rule := "ANY Readers", modPolicy := "" }),
   ("Writers", { ptype := ImplicitMetaPolicyType, rule := "ANY Writers", modPolicy := "" }),
   ("Admins", { ptype := ImplicitMetaPolicyType, rule := "MAJORITY Admins", modPolicy := "" }),
   ("TestPolicy", { ptype := "", rule := "", modPolicy := "" })]

/-- The self-signed certificate authority of the MSP fixtures (the CA cert
generateCACertAndPrivateKey produces: subject equals issuer, certificate
signing enabled). -/
def caCert : Cert :=
  { subject := "ca-org1.example.com", issuer := "ca-org1.example.com",
    serial := some 1, keyUsageCertSign := true }

/-- An intermediate certificate chained to the fixture certificate
authority. -/
def interCert : Cert :=
  { subject := "inter-org1.example.com", issuer := "ca-org1.example.com",
    serial := some 2, keyUsageCertSign := true }

/-- The zero certificate of TestAddRootCertFailure: no serial number and no
key usage. -/
def zeroCert : Cert :=
  { subject := "", issuer := "", serial := none, keyUsageCertSign := false }

/-- The organizational unit identifier of the baseMSP fixture. -/
def baseOU : OUIdentifier :=
  { certificate := some caCert, organizationalUnitIdentifier := "OUID" }

/-- The MSP of the baseMSP fixture in msp_test.go, with the fixture
certificate authority as root and the chained intermediate certificate in
both intermediate lists. -/
def baseMSPFixture : MSP :=
  { name := "MSPID",
    rootCerts := [caCert],
    intermediateCerts := [interCert],
    admins := [caCert],
    revocationList := [],
    organizationalUnitIdentifiers := [baseOU],
    cryptoConfig := { signatureHashFamily := "SHA3",
                      identityIdentifierHashFunction := "SHA256" },
    tlsRootCerts := [caCert],
    tlsIntermediateCerts := [interCert],
    nodeOUs := { enable := false,
                 clientOUIdentifier := baseOU,
                 peerOUIdentifier := baseOU,
                 adminOUIdentifier := baseOU,
                 ordererOUIdentifier := baseOU } }

/-- An organization group holding the fixture MSP value. -/
def mspTestGroup : ConfigGroup :=
  { groups := [],
    values := [(MSPKey,
      { value := .msp baseMSPFixture, version := 0, modPolicy := "Admins" })],
    policies := [], version := 0, modPolicy := "" }

/-- The empty config group the MSP failure tests substitute for the
organization group. -/
def emptyGroup : ConfigGroup :=
  { groups := [], values := [], policies := [], version := 0, modPolicy := "" }

/-! Helper lemmas. -/

/-- Looking up the key just inserted yields the inserted binding. -/
theorem alookup_ainsert {α : Type} (l : List (String × α)) (k : String) (v : α) :
    alookup (ainsert l k v) k = some v := by
  induction l with
  | nil => simp [ainsert, alookup]
  | cons hd tl ih =>
      obtain ⟨k₁, v₁⟩ := hd
      by_cases h : k₁ = k
      · simp [ainsert, alookup, h]
      · simp [ainsert, alookup, h, ih]

/-- A mutator call never touches the retained original component. -/
theorem applyMutationTx_original (ct : ConfigTx) (m : ChannelMutation) :
    (applyMutationTx ct m).original = ct.original := by
  unfold applyMutationTx
  cases applyChannelMutation ct.updated.channelGroup m <;> rfl

/-- A sequence of mutator calls never touches the retained original
component. -/
theorem applyMutations_original (ct : ConfigTx) (ms : List ChannelMutation) :
    (applyMutations ct ms).original = ct.original := by
  induction ms generalizing ct with
  | nil => rfl
  | cons m rest ih =>
      show (applyMutations (applyMutationTx ct m) rest).original = ct.original
      rw [ih, applyMutationTx_original]

/-- A successful AddCapability writes the Capabilities entry as a fresh
config value with version 0. -/
theorem addCapability_ok_version (g : ConfigGroup) (c : String)
    (g₁ : ConfigGroup) (h : addCapability g c = Except.ok g₁) :
    (alookup g₁.values CapabilitiesKey).map ConfigValue.version = some 0 := by
  unfold addCapability at h
  cases hc : channelCapabilities g with
  | error e => rw [hc] at h; exact absurd h (by simp)
  | ok caps =>
      rw [hc] at h
      simp only [Except.ok.injEq] at h
      subst h
      simp [setValue, alookup_ainsert]

/-- A successful RemoveCapability writes the Capabilities entry as a fresh
config value with version 0. -/
theorem removeCapability_ok_version (g : ConfigGroup) (c : String)
    (g₁ : ConfigGroup) (h : removeCapability g c = Except.ok g₁) :
    (alookup g₁.values CapabilitiesKey).map ConfigValue.version = some 0 := by
  unfold removeCapability at h
  cases hc : channelCapabilities g with
  | error e => rw [hc] at h; exact absurd h (by simp)
  | ok caps =>
      rw [hc] at h
      by_cases hmem : c ∈ caps.getD []
      · simp only [hmem, if_true, Except.ok.injEq] at h
        subst h
        simp [setValue, alookup_ainsert]
      · simp [hmem] at h

/-- A failed mutator call leaves the transaction exactly as it was. -/
theorem applyMutationTx_error (ct : ConfigTx) (m : ChannelMutation)
    (e : String)
    (h : applyChannelMutation ct.updated.channelGroup m = Except.error e) :
    applyMutationTx ct m = ct := by
  unfold applyMutationTx
  rw [h]

/-- Chain verification either succeeds or fails with the chain-of-trust
error. -/
theorem verifyChained_cases (certs roots : List Cert) :
    verifyChained certs roots = Except.ok () ∨
    verifyChained certs roots =
      Except.error "x509: certificate signed by unknown authority" := by
  unfold verifyChained
  split
  · exact Or.inl rfl
  · exact Or.inr rfl

/-! Claim theorems. -/

/-- C1, counterexample: in the configuration of TestSetChannelCapability the
Capabilities entry has version 0 before the call, AddCapability V3_0
succeeds, and the version of the written entry is again 0, not the pre-call
value plus 1 as the claim states. -/
theorem C1_counterexample :
    addCapability capTestGroup "V3_0" = Except.ok capTestGroupAfter ∧
    (alookup capTestGroup.values CapabilitiesKey).map ConfigValue.version = some 0 ∧
    (alookup capTestGroupAfter.values CapabilitiesKey).map ConfigValue.version = some 0 ∧
    (alookup capTestGroupAfter.values CapabilitiesKey).map ConfigValue.version ≠ some 1 :=
  ⟨rfl, rfl, rfl, by decide⟩

/-- C1, amended: a successful content-changing capability mutation writes
the target entry back as a fresh config value whose version is 0 (the
mutators do not increment the version counter; the bump by 1 belongs to the
diff engine), and a failed call leaves the tree unchanged. -/
theorem C1_amended :
    (∀ (g : ConfigGroup) (c : String) (g₁ : ConfigGroup),
       addCapability g c = Except.ok g₁ →
       (alookup g₁.values CapabilitiesKey).map ConfigValue.version = some 0) ∧
    (∀ (g : ConfigGroup) (c : String) (g₁ : ConfigGroup),
       removeCapability g c = Except.ok g₁ →
       (alookup g₁.values CapabilitiesKey).map ConfigValue.version = some 0) ∧
    (∀ (ct : ConfigTx) (m : ChannelMutation) (e : String),
       applyChannelMutation ct.updated.channelGroup m = Except.error e →
       applyMutationTx ct m = ct) :=
  ⟨addCapability_ok_version, removeCapability_ok_version, applyMutationTx_error⟩

/-- C1, witness: the amended statement applied to the configuration of
TestSetChannelCapability. -/
theorem C1_witness :
    (alookup capTestGroupAfter.values CapabilitiesKey).map ConfigValue.version = some 0 :=
  C1_amended.1 capTestGroup "V3_0" capTestGroupAfter rfl

/-- C2: for every configuration opened with New and every sequence of
mutator calls on the working copy, the retained original is left exactly as
supplied; in particular, after RemovePolicy Readers on the standard policy
set the working copy holds only Writers and Admins while the original still
reports all three policies. -/
theorem C2 :
    (∀ (cfg : Config) (ms : List ChannelMutation),
       (applyMutations (New cfg) ms).original = cfg) ∧
    (let ct := applyMutationTx (New { channelGroup := policyTestGroup })
        (ChannelMutation.removePolicy "Readers")
     alookup ct.updated.channelGroup.policies "Readers" = none ∧
     alookup ct.updated.channelGroup.policies "Writers" = some writersConfigPolicy ∧
     alookup ct.updated.channelGroup.policies "Admins" = some adminsConfigPolicy ∧
     ct.updated.channelGroup.policies.length = 2 ∧
     ct.original.channelGroup.policies.length = 3 ∧
     alookup ct.original.channelGroup.policies "Readers" = some readersConfigPolicy ∧
     getPolicies ct.updated.channelGroup.policies =
       Except.ok [("Writers",
         { ptype := ImplicitMetaPolicyType, rule := "ANY Writers", modPolicy := "Admins" }),
        ("Admins",
         { ptype := ImplicitMetaPolicyType, rule := "MAJORITY Admins", modPolicy := "Admins" })]) :=
  ⟨fun cfg ms => applyMutations_original (New cfg) ms,
   ⟨rfl, rfl, rfl, rfl, rfl, rfl, rfl⟩⟩

/-- C3, counterexample: starting from the empty capability set of
TestSetChannelCapability, AddCapability V3_0 succeeds and yields the set
containing exactly V3_0 with mod-policy Admins, but the version of the
resulting Capabilities entry is 0, not 1, so the version does not go from
0 to 1 as the claim states. -/
theorem C3_counterexample :
    addCapability capTestGroup "V3_0" = Except.ok capTestGroupAfter ∧
    (alookup capTestGroup.values CapabilitiesKey).map ConfigValue.version = some 0 ∧
    (alookup capTestGroupAfter.values CapabilitiesKey).map ConfigValue.version ≠ some 1 :=
  ⟨rfl, rfl, by decide⟩

/-- C3, amended: starting from a channel group whose capability set is
empty, AddCapability V3_0 succeeds and the resulting Capabilities value
holds exactly the capability set containing V3_0, its version remains 0
(the mutator writes a fresh entry; the version bump belongs to the diff
engine), and its mod-policy is Admins. -/
theorem C3_amended :
    addCapability capTestGroup "V3_0" = Except.ok capTestGroupAfter ∧
    alookup capTestGroupAfter.values CapabilitiesKey =
      some { value := ValuePayload.capabilities ["V3_0"], version := 0,
             modPolicy := "Admins" } :=
  ⟨rfl, rfl⟩

/-- C4: for every channel configuration whose capability set does not
contain the named capability, RemoveCapability fails with the
capability-not-set error, never creates the Capabilities values entry, and
leaves the targeted entry and the whole tree identical to the pre-call
state. -/
theorem C4 (g : ConfigGroup) (c : String) (caps : Option (List String))
    (hcaps : channelCapabilities g = Except.ok caps)
    (hmem : c ∉ caps.getD []) :
    removeCapability g c = Except.error "capability not set" ∧
    applyResult g (removeCapability g c) = g ∧
    alookup (applyResult g (removeCapability g c)).values CapabilitiesKey =
      alookup g.values CapabilitiesKey := by
  have herr : removeCapability g c = Except.error "capability not set" := by
    unfold removeCapability
    rw [hcaps]
    simp [hmem]
  refine ⟨herr, ?_, ?_⟩
  · rw [herr]; rfl
  · rw [herr]; rfl

/-- C4, witness: RemoveCapability V2_0 on the empty capability set of the
test configuration fails with the capability-not-set error and leaves the
group unchanged. -/
theorem C4_witness :
    removeCapability capTestGroup "V2_0" = Except.error "capability not set" ∧
    applyResult capTestGroup (removeCapability capTestGroup "V2_0") = capTestGroup :=
  ⟨(C4 capTestGroup "V2_0" (some []) rfl (by simp)).1,
   (C4 capTestGroup "V2_0" (some []) rfl (by simp)).2.1⟩

/-- C5: root-certificate removal first verifies that every remaining
intermediate and TLS-intermediate certificate still chains to some
remaining root of its pool; if any does not, RemoveRootCert and
RemoveTLSRootCert fail with the chain-of-trust error and the stored
certificate payload is left unchanged, so the removed root remains present
afterward. -/
theorem C5 :
    (∀ (g : ConfigGroup) (cert : Cert) (m : MSP),
       getMSPConfig g = Except.ok m →
       (m.intermediateCerts.all
           (fun c => chainsTo c (certsWithout m.rootCerts cert)) = false ∨
        m.tlsIntermediateCerts.all
           (fun c => chainsTo c m.tlsRootCerts) = false) →
       removeRootCert g cert =
         Except.error "x509: certificate signed by unknown authority" ∧
       applyResult g (removeRootCert g cert) = g ∧
       getMSPConfig (applyResult g (removeRootCert g cert)) = Except.ok m) ∧
    (∀ (g : ConfigGroup) (cert : Cert) (m : MSP),
       getMSPConfig g = Except.ok m →
       (m.intermediateCerts.all
           (fun c => chainsTo c m.rootCerts) = false ∨
        m.tlsIntermediateCerts.all
           (fun c => chainsTo c (certsWithout m.tlsRootCerts cert)) = false) →
       removeTLSRootCert g cert =
         Except.error "x509: certificate signed by unknown authority" ∧
       applyResult g (removeTLSRootCert g cert) = g ∧
       getMSPConfig (applyResult g (removeTLSRootCert g cert)) = Except.ok m) := by
  constructor
  · intro g cert m hm hbad
    have herr : removeRootCert g cert =
        Except.error "x509: certificate signed by unknown authority" := by
      rcases hbad with hb | hb
      · have hv : verifyChained m.intermediateCerts (certsWithout m.rootCerts cert) =
            Except.error "x509: certificate signed by unknown authority" := by
          unfold verifyChained
          rw [hb]
          simp
        simp [removeRootCert, hm, hv]
      · have hv₂ : verifyChained m.tlsIntermediateCerts m.tlsRootCerts =
            Except.error "x509: certificate signed by unknown authority" := by
          unfold verifyChained
          rw [hb]
          simp
        rcases verifyChained_cases m.intermediateCerts
            (certsWithout m.rootCerts cert) with hv₁ | hv₁
        · simp [removeRootCert, hm, hv₁, hv₂]
        · simp [removeRootCert, hm, hv₁]
    exact ⟨herr, by rw [herr]; rfl, by rw [herr]; exact hm⟩
  · intro g cert m hm hbad
    have herr : removeTLSRootCert g cert =
        Except.error "x509: certificate signed by unknown authority" := by
      rcases hbad with hb | hb
      · have hv : verifyChained m.intermediateCerts m.rootCerts =
            Except.error "x509: certificate signed by unknown authority" := by
          unfold verifyChained
          rw [hb]
          simp
        simp [removeTLSRootCert, hm, hv]
      · have hv₂ : verifyChained m.tlsIntermediateCerts
            (certsWithout m.tlsRootCerts cert) =
            Except.error "x509: certificate signed by unknown authority" := by
          unfold verifyChained
          rw [hb]
          simp
        rcases verifyChained_cases m.intermediateCerts m.rootCerts with hv₁ | hv₁
        · simp [removeTLSRootCert, hm, hv₁, hv₂]
        · simp [removeTLSRootCert, hm, hv₁]
    exact ⟨herr, by rw [herr]; rfl, by rw [herr]; exact hm⟩

/-- C5, witness: removing the only root of the fixture organization, whose
intermediate certificate chains to it, fails with the chain-of-trust error
and the root certificate is still present afterward; likewise for the TLS
side. -/
theorem C5_witness :
    (removeRootCert mspTestGroup caCert =
       Except.error "x509: certificate signed by unknown authority" ∧
     applyResult mspTestGroup (removeRootCert mspTestGroup caCert) = mspTestGroup ∧
     getMSPConfig (applyResult mspTestGroup (removeRootCert mspTestGroup caCert)) =
       Except.ok baseMSPFixture) ∧
    (removeTLSRootCert mspTestGroup caCert =
       Except.error "x509: certificate signed by unknown authority" ∧
     applyResult mspTestGroup (removeTLSRootCert mspTestGroup caCert) = mspTestGroup ∧
     getMSPConfig (applyResult mspTestGroup (removeTLSRootCert mspTestGroup caCert)) =
       Except.ok baseMSPFixture) :=
  ⟨C5.1 mspTestGroup caCert baseMSPFixture rfl (Or.inl (by decide)),
   C5.2 mspTestGroup caCert baseMSPFixture rfl (Or.inr (by decide))⟩

/-- C6: for every certificate lacking certificate-signing key usage, given
an organization group that does hold an MSP value, AddRootCert and
AddIntermediateCert fail with the InvalidArgument error naming the violated
constraint and the certificate serial number, and the MSP value is left
unchanged. -/
theorem C6 (g : ConfigGroup) (cert : Cert) (m : MSP)
    (hm : getMSPConfig g = Except.ok m)
    (husage : cert.keyUsageCertSign = false) :
    addRootCert g cert = Except.error
      ("invalid root cert: KeyUsage must be x509.KeyUsageCertSign. serial number: "
        ++ serialString cert.serial) ∧
    addIntermediateCert g cert = Except.error
      ("invalid intermediate cert: KeyUsage must be x509.KeyUsageCertSign. serial number: "
        ++ serialString cert.serial) ∧
    applyResult g (addRootCert g cert) = g ∧
    applyResult g (addIntermediateCert g cert) = g := by
  have hvr : validateCert cert "root" = Except.error
      ("invalid root cert: KeyUsage must be x509.KeyUsageCertSign. serial number: "
        ++ serialString cert.serial) := by
    unfold validateCert
    rw [husage]
    rfl
  have hvi : validateCert cert "intermediate" = Except.error
      ("invalid intermediate cert: KeyUsage must be x509.KeyUsageCertSign. serial number: "
        ++ serialString cert.serial) := by
    unfold validateCert
    rw [husage]
    rfl
  have hroot : addRootCert g cert = Except.error
      ("invalid root cert: KeyUsage must be x509.KeyUsageCertSign. serial number: "
        ++ serialString cert.serial) := by
    simp [addRootCert, hm, hvr]
  have hint : addIntermediateCert g cert = Except.error
      ("invalid intermediate cert: KeyUsage must be x509.KeyUsageCertSign. serial number: "
        ++ serialString cert.serial) := by
    simp [addIntermediateCert, hm, hvi]
  exact ⟨hroot, hint, by rw [hroot]; rfl, by rw [hint]; rfl⟩

/-- C6, witness: adding the zero certificate as a root certificate fails
with exactly the message the claim quotes, including the nil serial
number. -/
theorem C6_witness :
    addRootCert mspTestGroup zeroCert = Except.error
      "invalid root cert: KeyUsage must be x509.KeyUsageCertSign. serial number: <nil>" :=
  (C6 mspTestGroup zeroCert baseMSPFixture rfl rfl).1

/-- C7: policy content is validated against the closed variant set; a
single-policy operation touching a policies mapping with an entry of the
unrecognized numeric type 15 fails reporting that type, SetPolicies rejects
a batch containing an entry of an unrecognized textual type reporting that
type, and a failing RemovePolicy or SetPolicies applies nothing, leaving
the group unchanged. -/
theorem C7 :
    getPolicies badTypePolicyGroup.policies = Except.error "unknown policy type: 15" ∧
    removeChannelPolicy badTypePolicyGroup "Readers" =
      Except.error "unknown policy type: 15" ∧
    setChannelPolicies policyTestGroup badPolicyBatch =
      Except.error "unknown policy type: " ∧
    (∀ (g : ConfigGroup) (n : String) (e : String),
       removeChannelPolicy g n = Except.error e →
       applyResult g (removeChannelPolicy g n) = g) ∧
    (∀ (g : ConfigGroup) (ps : List (String × Policy)) (e : String),
       setChannelPolicies g ps = Except.error e →
       applyResult g (setChannelPolicies g ps) = g) := by
  refine ⟨rfl, rfl, rfl, ?_, ?_⟩
  · intro g n e h
    rw [h]; rfl
  · intro g ps e h
    rw [h]; rfl

/-- C7, witness: the unchanged-on-failure part applied to the failing
RemovePolicy and SetPolicies calls of the tests. -/
theorem C7_witness :
    applyResult badTypePolicyGroup
      (removeChannelPolicy badTypePolicyGroup "Readers") = badTypePolicyGroup ∧
    applyResult policyTestGroup
      (setChannelPolicies policyTestGroup badPolicyBatch) = policyTestGroup :=
  ⟨C7.2.2.2.1 badTypePolicyGroup "Readers" "unknown policy type: 15" C7.2.1,
   C7.2.2.2.2 policyTestGroup badPolicyBatch "unknown policy type: " C7.2.2.1⟩

/-- C8: for every MSP mutator, if the organization config group contains no
MSP value the call fails with exactly the MSP NotFound error and mutates
nothing: the group the caller sees is exactly the pre-call group. -/
theorem C8 (g : ConfigGroup) (h : alookup g.values MSPKey = none) :
    (∀ c, addAdminCert g c = Except.error "config does not contain value for MSP") ∧
    (∀ c, removeAdminCert g c = Except.error "config does not contain value for MSP") ∧
    (∀ c, addRootCert g c = Except.error "config does not contain value for MSP") ∧
    (∀ c, removeRootCert g c = Except.error "config does not contain value for MSP") ∧
    (∀ c, addIntermediateCert g c = Except.error "config does not contain value for MSP") ∧
    (∀ c, removeIntermediateCert g c = Except.error "config does not contain value for MSP") ∧
    (∀ ou, addOUIdentifier g ou = Except.error "config does not contain value for MSP") ∧
    (∀ ou, removeOUIdentifier g ou = Except.error "config does not contain value for MSP") ∧
    (∀ cc, setCryptoConfig g cc = Except.error "config does not contain value for MSP") ∧
    (∀ c, addTLSRootCert g c = Except.error "config does not contain value for MSP") ∧
    (∀ c, removeTLSRootCert g c = Except.error "config does not contain value for MSP") ∧
    (∀ c, addTLSIntermediateCert g c = Except.error "config does not contain value for MSP") ∧
    (∀ c, removeTLSIntermediateCert g c = Except.error "config does not contain value for MSP") ∧
    (∀ ou, setClientOUIdentifier g ou = Except.error "config does not contain value for MSP") ∧
    (∀ ou, setPeerOUIdentifier g ou = Except.error "config does not contain value for MSP") ∧
    (∀ ou, setAdminOUIdentifier g ou = Except.error "config does not contain value for MSP") ∧
    (∀ ou, setOrdererOUIdentifier g ou = Except.error "config does not contain value for MSP") ∧
    (∀ b, setEnableNodeOUs g b = Except.error "config does not contain value for MSP") ∧
    (∀ crl, addCRL g crl = Except.error "config does not contain value for MSP") ∧
    (∀ si certs, addCRLFromSigningIdentity g si certs =
        Except.error "config does not contain value for MSP") ∧
    (∀ e : String, applyResult g (Except.error e) = g) := by
  have hm : getMSPConfig g = Except.error "config does not contain value for MSP" := by
    unfold getMSPConfig
    rw [h]
  exact ⟨fun c => by simp [addAdminCert, hm],
    fun c => by simp [removeAdminCert, hm],
    fun c => by simp [addRootCert, hm],
    fun c => by simp [removeRootCert, hm],
    fun c => by simp [addIntermediateCert, hm],
    fun c => by simp [removeIntermediateCert, hm],
    fun ou => by simp [addOUIdentifier, hm],
    fun ou => by simp [removeOUIdentifier, hm],
    fun cc => by simp [setCryptoConfig, hm],
    fun c => by simp [addTLSRootCert, hm],
    fun c => by simp [removeTLSRootCert, hm],
    fun c => by simp [addTLSIntermediateCert, hm],
    fun c => by simp [removeTLSIntermediateCert, hm],
    fun ou => by simp [setClientOUIdentifier, hm],
    fun ou => by simp [setPeerOUIdentifier, hm],
    fun ou => by simp [setAdminOUIdentifier, hm],
    fun ou => by simp [setOrdererOUIdentifier, hm],
    fun b => by simp [setEnableNodeOUs, hm],
    fun crl => by simp [addCRL, hm],
    fun si certs => by simp [addCRLFromSigningIdentity, hm],
    fun e => rfl⟩

/-- C8, witness: the statement applied to the empty config group the MSP
failure tests substitute for the organization group. -/
theorem C8_witness :
    addAdminCert emptyGroup zeroCert =
      Except.error "config does not contain value for MSP" ∧
    addCRL emptyGroup { issuer := "", revokedSerials := [] } =
      Except.error "config does not contain value for MSP" :=
  ⟨(C8 emptyGroup rfl).1 zeroCert,
   (C8 emptyGroup rfl).2.2.2.2.2.2.2.2.2.2.2.2.2.2.2.2.2.2.1
     { issuer := "", revokedSerials := [] }⟩

/-- C9: adding a certificate already present in the targeted MSP list is a
successful no-op: the call returns without error and the whole group - in
particular the list - is unchanged.  For the root and intermediate adds the
certificate is assumed to carry certificate-signing key usage, since their
key-usage validation precedes the duplicate check. -/
theorem C9 (g : ConfigGroup) (m : MSP) (cert : Cert)
    (hm : getMSPConfig g = Except.ok m) :
    (cert ∈ m.admins → addAdminCert g cert = Except.ok g) ∧
    (cert.keyUsageCertSign = true → cert ∈ m.rootCerts →
       addRootCert g cert = Except.ok g) ∧
    (cert.keyUsageCertSign = true → cert ∈ m.intermediateCerts →
       addIntermediateCert g cert = Except.ok g) ∧
    (cert ∈ m.tlsIntermediateCerts → addTLSIntermediateCert g cert = Except.ok g) := by
  refine ⟨?_, ?_, ?_, ?_⟩
  · intro hmem
    simp [addAdminCert, hm, hmem]
  · intro hu hmem
    have hv : validateCert cert "root" = Except.ok () := by
      simp [validateCert, hu]
    simp [addRootCert, hm, hv, hmem]
  · intro hu hmem
    have hv : validateCert cert "intermediate" = Except.ok () := by
      simp [validateCert, hu]
    simp [addIntermediateCert, hm, hv, hmem]
  · intro hmem
    simp [addTLSIntermediateCert, hm, hmem]

/-- C9, witness: re-adding the certificates already present in the fixture
MSP lists succeeds and leaves the group unchanged. -/
theorem C9_witness :
    addAdminCert mspTestGroup caCert = Except.ok mspTestGroup ∧
    addRootCert mspTestGroup caCert = Except.ok mspTestGroup ∧
    addIntermediateCert mspTestGroup interCert = Except.ok mspTestGroup ∧
    addTLSIntermediateCert mspTestGroup interCert = Except.ok mspTestGroup :=
  ⟨(C9 mspTestGroup baseMSPFixture caCert rfl).1 (by decide),
   (C9 mspTestGroup baseMSPFixture caCert rfl).2.1 rfl (by decide),
   (C9 mspTestGroup baseMSPFixture interCert rfl).2.2.1 rfl (by decide),
   (C9 mspTestGroup baseMSPFixture interCert rfl).2.2.2 (by decide)⟩

/-- C10: for each protolator adapter type, StaticallyOpaqueFieldProto
succeeds exactly when the name is an element of the StaticallyOpaqueFields
list of that type, returning the respective fresh message, and for every
other name returns the not-a-marshaled-field error naming the field. -/
theorem C10 (name : String) :
    ((∃ msg, ChaincodeProposalPayload.staticallyOpaqueFieldProto name =
        Except.ok msg) ↔ name ∈ ChaincodeProposalPayload.staticallyOpaqueFields) ∧
    (name = "input" → ChaincodeProposalPayload.staticallyOpaqueFieldProto name =
        Except.ok ProtoMessage.chaincodeInvocationSpec) ∧
    (name ∉ ChaincodeProposalPayload.staticallyOpaqueFields →
        ChaincodeProposalPayload.staticallyOpaqueFieldProto name =
          Except.error ("not a marshaled field: " ++ name)) ∧
    ((∃ msg, ChaincodeAction.staticallyOpaqueFieldProto name = Except.ok msg) ↔
        name ∈ ChaincodeAction.staticallyOpaqueFields) ∧
    (name = "results" → ChaincodeAction.staticallyOpaqueFieldProto name =
        Except.ok ProtoMessage.txReadWriteSet) ∧
    (name = "events" → ChaincodeAction.staticallyOpaqueFieldProto name =
        Except.ok ProtoMessage.chaincodeEvent) ∧
    (name ∉ ChaincodeAction.staticallyOpaqueFields →
        ChaincodeAction.staticallyOpaqueFieldProto name =
          Except.error ("not a marshaled field: " ++ name)) ∧
    ((∃ msg, ProposalResponsePayload.staticallyOpaqueFieldProto name =
        Except.ok msg) ↔ name ∈ ProposalResponsePayload.staticallyOpaqueFields) ∧
    (name = "extension" → ProposalResponsePayload.staticallyOpaqueFieldProto name =
        Except.ok ProtoMessage.chaincodeAction) ∧
    (name ∉ ProposalResponsePayload.staticallyOpaqueFields →
        ProposalResponsePayload.staticallyOpaqueFieldProto name =
          Except.error ("not a marshaled field: " ++ name)) := by
  have hcpp : ∀ n : String, ChaincodeProposalPayload.staticallyOpaqueFieldProto n =
      if n = "input" then Except.ok ProtoMessage.chaincodeInvocationSpec
      else Except.error ("not a marshaled field: " ++ n) := by
    intro n
    unfold ChaincodeProposalPayload.staticallyOpaqueFieldProto
    by_cases hn : n = "input"
    · simp [ChaincodeProposalPayload.staticallyOpaqueFields, List.head!, hn]
    · simp [ChaincodeProposalPayload.staticallyOpaqueFields, List.head!, hn]
  have hprp : ∀ n : String, ProposalResponsePayload.staticallyOpaqueFieldProto n =
      if n = "extension" then Except.ok ProtoMessage.chaincodeAction
      else Except.error ("not a marshaled field: " ++ n) := by
    intro n
    unfold ProposalResponsePayload.staticallyOpaqueFieldProto
    by_cases hn : n = "extension"
    · simp [ProposalResponsePayload.staticallyOpaqueFields, List.head!, hn]
    · simp [ProposalResponsePayload.staticallyOpaqueFields, List.head!, hn]
  refine ⟨?_, ?_, ?_, ?_, ?_, ?_, ?_, ?_, ?_, ?_⟩
  · by_cases hn : name = "input" <;>
      simp [hcpp, ChaincodeProposalPayload.staticallyOpaqueFields, hn]
  · intro hn
    simp [hcpp, hn]
  · intro hn
    simp [ChaincodeProposalPayload.staticallyOpaqueFields] at hn
    simp [hcpp, hn]
  · by_cases h₁ : name = "results"
    · simp [ChaincodeAction.staticallyOpaqueFieldProto,
        ChaincodeAction.staticallyOpaqueFields, h₁]
    · by_cases h₂ : name = "events" <;>
        simp [ChaincodeAction.staticallyOpaqueFieldProto,
          ChaincodeAction.staticallyOpaqueFields, h₁, h₂]
  · intro hn
    simp [ChaincodeAction.staticallyOpaqueFieldProto, hn]
  · intro hn
    have : name ≠ "results" := by
      rw [hn]
      decide
    simp [ChaincodeAction.staticallyOpaqueFieldProto, this, hn]
  · intro hn
    simp [ChaincodeAction.staticallyOpaqueFields] at hn
    simp [ChaincodeAction.staticallyOpaqueFieldProto, hn.1, hn.2]
  · by_cases hn : name = "extension" <;>
      simp [hprp, ProposalResponsePayload.staticallyOpaqueFields, hn]
  · intro hn
    simp [hprp, hn]
  · intro hn
    simp [ProposalResponsePayload.staticallyOpaqueFields] at hn
    simp [hprp, hn]

/-- C10, witness: the statement applied at each opaque field name and at a
name outside the field lists. -/
theorem C10_witness :
    ChaincodeProposalPayload.staticallyOpaqueFieldProto "input" =
      Except.ok ProtoMessage.chaincodeInvocationSpec ∧
    ChaincodeAction.staticallyOpaqueFieldProto "results" =
      Except.ok ProtoMessage.txReadWriteSet ∧
    ChaincodeAction.staticallyOpaqueFieldProto "events" =
      Except.ok ProtoMessage.chaincodeEvent ∧
    ProposalResponsePayload.staticallyOpaqueFieldProto "extension" =
      Except.ok ProtoMessage.chaincodeAction ∧
    ChaincodeProposalPayload.staticallyOpaqueFieldProto "results" =
      Except.error "not a marshaled field: results" :=
  ⟨(C10 "input").2.1 rfl,
   (C10 "results").2.2.2.2.1 rfl,
   (C10 "events").2.2.2.2.2.1 rfl,
   (C10 "extension").2.2.2.2.2.2.2.2.1 rfl,
   (C10 "results").2.2.1 (by decide)⟩

end FabricConfig
